import Mathlib

/-!
Shallow embedding of `sanic_openapi/doc.py`: the Field model (Integer, Float,
String, Boolean, Date, DateTime, File, Dictionary, List, Tuple, Object), the
recursive `serialize_schema` resolver, the global `definitions` registry, and
the route-metadata annotations (`route`, `summary`, `description`, `consumes`,
`produces`, `tag`, `hide`, `headers`).

Python dictionaries are modelled as insertion-ordered association lists
(`JMap`); `{**a, **b}` display merging is `dictMerge` (right operand updates
existing keys in place, otherwise appends, like Python dicts).  Python `None`
is `Option.none`; a function body that can raise returns `Except Err`.
-/

set_option autoImplicit false

namespace SanicOpenapi

/-- A class reference to one of the `Field` subclasses (used when the resolver
receives the class itself rather than an instance, `issubclass(schema, Field)`
branch of `serialize_schema`). -/
inductive VariantRef : Type where
  | field
  | integer
  | file
  | string
  | float
  | boolean
  | tuple
  | date
  | dateTime
  | dictionary
  | list
  | object
  deriving DecidableEq, Repr

mutual

/-- A Python runtime value as it can appear as a `Field` attribute
(`name`, `description`, `default`, `enum`, `indata`) or inside a serialized
mapping.  `schema` embeds a raw schema-descriptor object used as a plain value
(this happens for `Tuple(self.items)`, whose `description` attribute is the
raw list of item descriptors). -/
inductive PVal : Type where
  | str : String → PVal
  | int : Int → PVal
  | bool : Bool → PVal
  | list : List PVal → PVal
  | dict : List (String × PVal) → PVal
  | schema : PySchema → PVal

/-- The attributes set by `Field.__init__`, in source order:
name, description, required, default, enum, indata. -/
inductive FieldAttrs : Type where
  | mk (name description required default enum indata : Option PVal) : FieldAttrs

/-- The runtime state of a constructed `Field` instance, one constructor per
subclass of `Field` in `doc.py` (`objList` is the `List` class). -/
inductive FieldKind : Type where
  | field
  | tuple
  | integer (minimum maximum : Option PVal)
  | float (minimum maximum : Option PVal)
  | string
  | file
  | boolean
  | date
  | dateTime
  | dictionary (fields : List (String × PySchema))
  | objList (items : List PySchema)
  | object (ref : Nat) (clsName : String) (clsAttrs : List (String × PySchema))
      (objectName : String)

/-- A type reference handed to `serialize_schema` (`type(schema) is type`
branch): a `Field` subclass, a native container/primitive type, or a
user-defined class.  `ref` models Python class-object identity (the
`definitions` dict is keyed by the class object itself). -/
inductive TypeRef : Type where
  | fieldType (v : VariantRef)
  | dictType
  | listType
  | intType
  | strType
  | boolType
  | floatType
  | dateType
  | datetimeType
  | userClass (ref : Nat) (clsName : String) (clsAttrs : List (String × PySchema))

/-- An input to `serialize_schema`: a type reference, a `Field` instance, a
native dict, a native list, or anything else (the `return {}` fallback). -/
inductive PySchema : Type where
  | typeRef (t : TypeRef)
  | fieldInst (k : FieldKind) (a : FieldAttrs)
  | pyDict (fields : List (String × PySchema))
  | pyList (items : List PySchema)
  | other

end

namespace FieldAttrs

def name : FieldAttrs → Option PVal
  | .mk n _ _ _ _ _ => n

def description : FieldAttrs → Option PVal
  | .mk _ d _ _ _ _ => d

def required : FieldAttrs → Option PVal
  | .mk _ _ r _ _ _ => r

def default : FieldAttrs → Option PVal
  | .mk _ _ _ df _ _ => df

def enum : FieldAttrs → Option PVal
  | .mk _ _ _ _ e _ => e

def indata : FieldAttrs → Option PVal
  | .mk _ _ _ _ _ i => i

end FieldAttrs

/-- All-`None` field attributes (a no-argument `Field.__init__` call). -/
def noAttrs : FieldAttrs := .mk none none none none none none

/-- The serialized form of a schema: an insertion-ordered Python dict. -/
abbrev JMap := List (String × PVal)

/-- First-match association-list lookup, i.e. Python `d[k]` / `k in d`. -/
def jLookup (k : String) : JMap → Option PVal
  | [] => none
  | (k', v) :: rest => if k' = k then some v else jLookup k rest

def jKeys (m : JMap) : List String := m.map Prod.fst

def dictHasKey (m : JMap) (k : String) : Bool := m.any fun p => p.1 == k

/-- Python dict assignment `m[k] = v`: update in place when the key exists
(keeping its position), otherwise append. -/
def dictInsert (m : JMap) (k : String) (v : PVal) : JMap :=
  if dictHasKey m k then m.map (fun p => if p.1 == k then (p.1, v) else p)
  else m ++ [(k, v)]

/-- Python `{**a, **b}`: fold `b`'s entries into `a` by dict assignment. -/
def dictMerge (a b : JMap) : JMap := b.foldl (fun m p => dictInsert m p.1 p.2) a

/-- Python truthiness of a `PVal` (`if self.name:` etc.). -/
def truthy : PVal → Bool
  | .str s => !s.isEmpty
  | .int i => i != 0
  | .bool b => b
  | .list l => !l.isEmpty
  | .dict l => !l.isEmpty
  | .schema _ => true

/-- `if x: output[key] = x` (truthiness test, used for `name`/`description`). -/
def optTruthy (key : String) : Option PVal → JMap
  | some v => if truthy v then [(key, v)] else []
  | none => []

/-- `if x is not None: output[key] = x` (used for `required`/`default`/`enum`/`in`). -/
def optPresent (key : String) : Option PVal → JMap
  | some v => [(key, v)]
  | none => []

/-- `Field.serialize`: conditionally emit name, description, required,
default, enum, in — in that order. -/
def fieldSerialize (a : FieldAttrs) : JMap :=
  optTruthy "name" a.name ++ optTruthy "description" a.description ++
    optPresent "required" a.required ++ optPresent "default" a.default ++
    optPresent "enum" a.enum ++ optPresent "in" a.indata

/-- `Integer.serialize`:
`{"type": "integer", "format": "int64", **addition, **super().serialize()}`. -/
def integerSerialize (minimum maximum : Option PVal) (a : FieldAttrs) : JMap :=
  dictMerge
    (dictMerge [("type", .str "integer"), ("format", .str "int64")]
      (optPresent "minimum" minimum ++ optPresent "maximum" maximum))
    (fieldSerialize a)

/-- `Float.serialize`:
`{"type": "number", "format": "float", **addition, **super().serialize()}`. -/
def floatSerialize (minimum maximum : Option PVal) (a : FieldAttrs) : JMap :=
  dictMerge
    (dictMerge [("type", .str "number"), ("format", .str "float")]
      (optPresent "minimum" minimum ++ optPresent "maximum" maximum))
    (fieldSerialize a)

/-- `String.serialize`. -/
def stringSerialize (a : FieldAttrs) : JMap :=
  dictMerge [("type", .str "string")] (fieldSerialize a)

/-- `File.serialize`. -/
def fileSerialize (a : FieldAttrs) : JMap :=
  dictMerge [("type", .str "file")] (fieldSerialize a)

/-- `Boolean.serialize`. -/
def booleanSerialize (a : FieldAttrs) : JMap :=
  dictMerge [("type", .str "boolean")] (fieldSerialize a)

/-- `Date.serialize`. -/
def dateSerialize (a : FieldAttrs) : JMap :=
  dictMerge [("type", .str "date")] (fieldSerialize a)

/-- `DateTime.serialize`. -/
def dateTimeSerialize (a : FieldAttrs) : JMap :=
  dictMerge [("type", .str "dateTime")] (fieldSerialize a)

/-- `Tuple(self.items).serialize()` as used by `List.serialize`: `Tuple`
inherits both `__init__` and `serialize` from `Field`, and `self.items` is
passed as the first positional argument, i.e. as `description`. -/
def tupleWrapItems (items : List PySchema) : JMap :=
  fieldSerialize (.mk none (some (.list (items.map PVal.schema))) none none none none)

/-- `Object.serialize()` given the computed `object_name`:
`{"$ref": "#/definitions/<name>", **super().serialize()}`. -/
def objectSerializeNamed (objectName : String) (a : FieldAttrs) : JMap :=
  dictMerge [("$ref", .str ("#/definitions/" ++ objectName))] (fieldSerialize a)

/-- The shape shared by `Dictionary.serialize` and `Object.definition`:
`{"type": "object", "properties": {...}, **super().serialize()}`. -/
def objectTypeSchema (props : JMap) (a : FieldAttrs) : JMap :=
  dictMerge [("type", .str "object"), ("properties", .dict props)] (fieldSerialize a)

/-- A constructed `Object` instance. -/
structure ObjInst : Type where
  ref : Nat
  clsName : String
  clsAttrs : List (String × PySchema)
  objectName : String
  attrs : FieldAttrs

/-- The global `definitions` dict: class reference ↦ `(instance, definition)`,
insertion-ordered. -/
abbrev Defs := List (Nat × ObjInst × JMap)

def hasRef (defs : Defs) (r : Nat) : Bool := defs.any fun e => e.1 == r

/-- Python dict assignment `definitions[cls] = entry`. -/
def defsAssign (defs : Defs) (r : Nat) (entry : ObjInst × JMap) : Defs :=
  if hasRef defs r then defs.map (fun e => if e.1 == r then (e.1, entry) else e)
  else defs ++ [(r, entry)]

/-- Number of registry entries stored for class reference `r`. -/
def countRef (defs : Defs) (r : Nat) : Nat := defs.countP fun e => e.1 == r

/-- Python `key.startswith("_")`, computed on the character list so that it
reduces inside the kernel. -/
def startsUnderscore (k : String) : Bool :=
  match k.data with
  | [] => false
  | c :: _ => c == '_'

/-- Python `object_name or cls.__name__` in `Object.__init__`: `or` falls
through on FALSY values, so both `None` and the empty string `""` yield the
class name; only a non-empty override is honored. -/
def objectNameOr (objectName : Option String) (clsName : String) : String :=
  match objectName with
  | some s => if s.isEmpty then clsName else s
  | none => clsName

/-- The exceptions the serializer can raise: the `UnboundLocalError` in
`List.serialize` when `self.items` is empty, and the `TypeError` from
instantiating `Object` with no arguments. -/
inductive Err : Type where
  | unboundLocal
  | typeError
  deriving DecidableEq, Repr

mutual

/-- `serialize_schema(schema)`: dispatch on whether the input is a type
reference, a `Field` instance, a dict, a list, or anything else; threads the
global `definitions` state and propagates exceptions. -/
def serializeSchema : PySchema → Defs → Except Err JMap × Defs
  | .typeRef t, defs =>
    match t with
    | .fieldType v =>
      match v with
      | .field => (.ok (fieldSerialize noAttrs), defs)
      | .tuple => (.ok (fieldSerialize noAttrs), defs)
      | .integer => (.ok (integerSerialize none none noAttrs), defs)
      | .file => (.ok (fileSerialize noAttrs), defs)
      | .string => (.ok (stringSerialize noAttrs), defs)
      | .float => (.ok (floatSerialize none none noAttrs), defs)
      | .boolean => (.ok (booleanSerialize noAttrs), defs)
      | .date => (.ok (dateSerialize noAttrs), defs)
      | .dateTime => (.ok (dateTimeSerialize noAttrs), defs)
      | .dictionary => dictionarySerialize [] noAttrs defs
      | .list => listSerialize [] defs
      | .object => (.error .typeError, defs)
    | .dictType => dictionarySerialize [] noAttrs defs
    | .listType => listSerialize [] defs
    | .intType => (.ok (integerSerialize none none noAttrs), defs)
    | .strType => (.ok (stringSerialize noAttrs), defs)
    | .boolType => (.ok (booleanSerialize noAttrs), defs)
    | .floatType => (.ok (floatSerialize none none noAttrs), defs)
    | .dateType => (.ok (dateSerialize noAttrs), defs)
    | .datetimeType => (.ok (dateTimeSerialize noAttrs), defs)
    | .userClass r n attrs =>
      match objectInit r n attrs none noAttrs defs with
      | (.error e, d) => (.error e, d)
      | (.ok inst, d) => (.ok (objectSerializeNamed inst.objectName inst.attrs), d)
  | .fieldInst k a, defs => fieldInstSerialize k a defs
  | .pyDict fields, defs => dictionarySerialize fields noAttrs defs
  | .pyList items, defs => listSerialize items defs
  | .other, defs => (.ok [], defs)
termination_by s _ => (sizeOf s, 1)

/-- `schema.serialize()` for a constructed `Field` instance, by subclass. -/
def fieldInstSerialize : FieldKind → FieldAttrs → Defs → Except Err JMap × Defs
  | .field, a, defs => (.ok (fieldSerialize a), defs)
  | .tuple, a, defs => (.ok (fieldSerialize a), defs)
  | .integer mn mx, a, defs => (.ok (integerSerialize mn mx a), defs)
  | .float mn mx, a, defs => (.ok (floatSerialize mn mx a), defs)
  | .string, a, defs => (.ok (stringSerialize a), defs)
  | .file, a, defs => (.ok (fileSerialize a), defs)
  | .boolean, a, defs => (.ok (booleanSerialize a), defs)
  | .date, a, defs => (.ok (dateSerialize a), defs)
  | .dateTime, a, defs => (.ok (dateTimeSerialize a), defs)
  | .dictionary fields, a, defs => dictionarySerialize fields a defs
  | .objList items, _, defs => listSerialize items defs
  | .object _ _ _ objectName, a, defs => (.ok (objectSerializeNamed objectName a), defs)
termination_by k _ _ => (sizeOf k, 1)

/-- `Dictionary.serialize`: serialize every property, then build
`{"type": "object", "properties": {...}, **super().serialize()}`. -/
def dictionarySerialize (fields : List (String × PySchema)) (a : FieldAttrs)
    (defs : Defs) : Except Err JMap × Defs :=
  match dictProps fields defs with
  | (.error e, d) => (.error e, d)
  | (.ok props, d) => (.ok (objectTypeSchema props a), d)
termination_by (sizeOf fields, 2)

/-- The dict comprehension
`{key: serialize_schema(schema) for key, schema in self.fields.items()}`. -/
def dictProps : List (String × PySchema) → Defs → Except Err JMap × Defs
  | [], defs => (.ok [], defs)
  | (k, v) :: rest, defs =>
    match serializeSchema v defs with
    | (.error e, d) => (.error e, d)
    | (.ok m, d) =>
      match dictProps rest d with
      | (.error e, d2) => (.error e, d2)
      | (.ok ms, d2) => (.ok ((k, PVal.dict m) :: ms), d2)
termination_by l _ => (sizeOf l, 1)

/-- The dict comprehension in `Object.definition`, which additionally skips
underscore-prefixed attribute names. -/
def objectProps : List (String × PySchema) → Defs → Except Err JMap × Defs
  | [], defs => (.ok [], defs)
  | (k, v) :: rest, defs =>
    if startsUnderscore k then objectProps rest defs
    else
      match serializeSchema v defs with
      | (.error e, d) => (.error e, d)
      | (.ok m, d) =>
        match objectProps rest d with
        | (.error e, d2) => (.error e, d2)
        | (.ok ms, d2) => (.ok ((k, PVal.dict m) :: ms), d2)
termination_by l _ => (sizeOf l, 1)

/-- `List.serialize`.  With more than one item, `items` is
`Tuple(self.items).serialize()`; with exactly one, `serialize_schema` of it;
with none, the local variable `items` is read before assignment
(`UnboundLocalError`).  The base `Field` attributes are never consulted. -/
def listSerialize : List PySchema → Defs → Except Err JMap × Defs
  | [], defs => (.error .unboundLocal, defs)
  | [x], defs =>
    match serializeSchema x defs with
    | (.error e, d) => (.error e, d)
    | (.ok m, d) => (.ok [("type", PVal.str "array"), ("items", PVal.dict m)], d)
  | x :: y :: rest, defs =>
    (.ok [("type", PVal.str "array"),
          ("items", PVal.dict (tupleWrapItems (x :: y :: rest)))], defs)
termination_by l _ => (sizeOf l, 2)

/-- `Object.__init__(cls, *args, object_name=None, **kwargs)`: compute
`self.object_name = object_name or cls.__name__` (truthiness fallback), and
when the class is not yet registered, evaluate `(self, self.definition)` and
assign it into `definitions`. -/
def objectInit (r : Nat) (clsName : String) (clsAttrs : List (String × PySchema))
    (objectName : Option String) (a : FieldAttrs) (defs : Defs) :
    Except Err ObjInst × Defs :=
  let inst : ObjInst := ⟨r, clsName, clsAttrs, objectNameOr objectName clsName, a⟩
  if hasRef defs r then (.ok inst, defs)
  else
    match objectProps clsAttrs defs with
    | (.error e, d) => (.error e, d)
    | (.ok props, d) => (.ok inst, defsAssign d r (inst, objectTypeSchema props a))
termination_by (sizeOf clsAttrs, 3)

end

/-- `Integer.__init__(description, required, name, default, enum, minimum, maximum)`:
stores `minimum`/`maximum` and calls
`super().__init__(description, required, name, default)`, so the accepted
`enum` argument is never forwarded and the instance's `enum`/`indata`
attributes stay `None`. -/
def integerInit (description required name default enum minimum maximum : Option PVal) :
    FieldKind × FieldAttrs :=
  (.integer minimum maximum, .mk name description required default none none)

/-- `Float.__init__`, same shape as `Integer.__init__`. -/
def floatInit (description required name default enum minimum maximum : Option PVal) :
    FieldKind × FieldAttrs :=
  (.float minimum maximum, .mk name description required default none none)

/-- Every key of `m` lies in `L`. -/
def keysIn (m : JMap) (L : List String) : Prop :=
  ∀ k : String, dictHasKey m k = true → k ∈ L

/-- The keys the base `Field.serialize` can emit, in emission order. -/
def fieldKeys : List String :=
  ["name", "description", "required", "default", "enum", "in"]

/-- The type-specific keys any subclass serializer can emit. -/
def typeKeys : List String :=
  ["type", "format", "minimum", "maximum", "properties", "items", "$ref"]

/-- Relates a registry count before and after one serializer step: it is
unchanged, or moved from `0` to `1`. -/
def Rcount (a b : Nat) : Prop := b = a ∨ (a = 0 ∧ b = 1)

/-! ### Route Metadata Registry

`route_specs` is a `defaultdict(RouteSpec)`; each annotation's returned
`inner` function mutates the handler's `RouteSpec` in place.  Each annotation
is modelled as the state transformer it applies to that one record. -/

/-- The per-handler documentation record (`class RouteSpec`), with the
defaults from the class body plus `tags = []` from `__init__`. -/
structure RouteSpec : Type where
  consumes : Option PVal
  consumes_content_type : Option PVal
  produces : Option PVal
  produces_content_type : Option PVal
  summary : Option PVal
  description : Option PVal
  operation : Option PVal
  blueprint : Option PVal
  tags : List PVal
  hide : Option PVal
  produces_description : Option PVal
  produces_examples : Option PVal
  headers : Option PVal

/-- The freshly constructed `RouteSpec()` a `defaultdict` lookup creates. -/
def RouteSpec.init : RouteSpec :=
  ⟨none, none, none, none, none, none, none, none, [], none, none, none, none⟩

/-- `args[0] if len(args) == 1 else args`. -/
def collapse : List PVal → PVal
  | [a] => a
  | xs => .list xs

/-- The `route(...)` decorator: each keyword explicitly supplied (not `None`)
overwrites its field; absent keywords touch nothing. -/
def routeAnn (summary description consumes produces consumes_content_type
    produces_content_type hide headers : Option PVal) (rs : RouteSpec) : RouteSpec :=
  let r1 := match summary with
    | some v => { rs with summary := some v }
    | none => rs
  let r2 := match description with
    | some v => { r1 with description := some v }
    | none => r1
  let r3 := match consumes with
    | some v => { r2 with consumes := some v }
    | none => r2
  let r4 := match produces with
    | some v => { r3 with produces := some v }
    | none => r3
  let r5 := match consumes_content_type with
    | some v => { r4 with consumes_content_type := some v }
    | none => r4
  let r6 := match produces_content_type with
    | some v => { r5 with produces_content_type := some v }
    | none => r5
  let r7 := match hide with
    | some v => { r6 with hide := some v }
    | none => r6
  match headers with
  | some v => { r7 with headers := some v }
  | none => r7

/-- `summary(text)`. -/
def summaryAnn (text : PVal) (rs : RouteSpec) : RouteSpec :=
  { rs with summary := some text }

/-- `description(text)`. -/
def descriptionAnn (text : PVal) (rs : RouteSpec) : RouteSpec :=
  { rs with description := some text }

/-- `consumes(*args, content_type=None)`: with at least one positional
argument, sets `consumes` to the collapsed arguments and `consumes_content_type`
to the `content_type` argument as given (including `None`). -/
def consumesAnn (args : List PVal) (content_type : Option PVal) (rs : RouteSpec) : RouteSpec :=
  if args.isEmpty then rs
  else { rs with consumes := some (collapse args), consumes_content_type := content_type }

/-- `produces(*args, description='', content_type=None, examples=None)`. -/
def producesAnn (args : List PVal) (description : PVal) (content_type : Option PVal)
    (examples : Option PVal) (rs : RouteSpec) : RouteSpec :=
  if args.isEmpty then rs
  else { rs with
    produces := some (collapse args)
    produces_content_type := content_type
    produces_description := some description
    produces_examples := examples }

/-- `tag(name)`: appends to `tags`. -/
def tagAnn (n : PVal) (rs : RouteSpec) : RouteSpec :=
  { rs with tags := rs.tags ++ [n] }

/-- `hide()`: sets `hide = True` unconditionally. -/
def hideAnn (rs : RouteSpec) : RouteSpec :=
  { rs with hide := some (.bool true) }

/-- `headers(*args)`. -/
def headersAnn (args : List PVal) (rs : RouteSpec) : RouteSpec :=
  if args.isEmpty then rs
  else { rs with headers := some (collapse args) }

/-! ### Association-list and merge lemmas -/

theorem jLookup_append (k : String) (m1 m2 : JMap) :
    jLookup k (m1 ++ m2) =
      match jLookup k m1 with
      | some v => some v
      | none => jLookup k m2 := by
  induction m1 with
  | nil => simp [jLookup]
  | cons p rest ih =>
    obtain ⟨k1, v1⟩ := p
    by_cases h : k1 = k <;> simp [jLookup, h, ih]

theorem dictHasKey_append (m1 m2 : JMap) (k : String) :
    dictHasKey (m1 ++ m2) k = (dictHasKey m1 k || dictHasKey m2 k) := by
  simp [dictHasKey, List.any_append]

theorem jKeys_cons (p : String × PVal) (m : JMap) : jKeys (p :: m) = p.1 :: jKeys m := rfl

theorem dictHasKey_cons (p : String × PVal) (m : JMap) (k : String) :
    dictHasKey (p :: m) k = (p.1 == k || dictHasKey m k) := by
  simp [dictHasKey]

theorem dictHasKey_iff_mem (m : JMap) (k : String) :
    dictHasKey m k = true ↔ k ∈ jKeys m := by
  induction m with
  | nil => simp [dictHasKey, jKeys]
  | cons p rest ih =>
    rw [dictHasKey_cons, jKeys_cons]
    simp [ih]
    rw [eq_comm]

theorem jLookup_eq_none_of_hasKey_false (m : JMap) (k : String)
    (h : dictHasKey m k = false) : jLookup k m = none := by
  induction m with
  | nil => rfl
  | cons p rest ih =>
    obtain ⟨k1, v1⟩ := p
    rw [dictHasKey_cons] at h
    rcases Bool.or_eq_false_iff.mp h with ⟨h1, h2⟩
    have hne : k1 ≠ k := by
      intro he
      rw [he] at h1
      simp at h1
    simp [jLookup, hne, ih h2]

theorem keysIn_append {m1 m2 : JMap} {L : List String}
    (h1 : keysIn m1 L) (h2 : keysIn m2 L) : keysIn (m1 ++ m2) L := by
  intro k hk
  rw [dictHasKey_append] at hk
  rcases Bool.or_eq_true_iff.mp hk with h | h
  · exact h1 k h
  · exact h2 k h

theorem keysIn_mono {m : JMap} {L L2 : List String}
    (h : keysIn m L) (hsub : L ⊆ L2) : keysIn m L2 :=
  fun k hk => hsub (h k hk)

theorem keysIn_optPresent (k : String) (v : Option PVal) :
    keysIn (optPresent k v) [k] := by
  intro q hq
  cases v with
  | none => simp [optPresent, dictHasKey] at hq
  | some x =>
    simp [optPresent, dictHasKey] at hq
    simp [hq]

theorem keysIn_optTruthy (k : String) (v : Option PVal) :
    keysIn (optTruthy k v) [k] := by
  intro q hq
  cases v with
  | none => simp [optTruthy, dictHasKey] at hq
  | some x =>
    by_cases ht : truthy x <;> simp [optTruthy, ht, dictHasKey] at hq
    simp [hq]

theorem sublist_of_optTruthy (k : String) (v : Option PVal) :
    List.Sublist (jKeys (optTruthy k v)) [k] := by
  cases v with
  | none => simp [optTruthy, jKeys]
  | some x =>
    by_cases ht : truthy x <;> simp [optTruthy, ht, jKeys]

theorem sublist_of_optPresent (k : String) (v : Option PVal) :
    List.Sublist (jKeys (optPresent k v)) [k] := by
  cases v with
  | none => simp [optPresent, jKeys]
  | some x => simp [optPresent, jKeys]

theorem keysIn_fieldSerialize (a : FieldAttrs) : keysIn (fieldSerialize a) fieldKeys := by
  unfold fieldSerialize
  refine keysIn_append (keysIn_append (keysIn_append (keysIn_append (keysIn_append
    (keysIn_mono (keysIn_optTruthy _ _) ?_) (keysIn_mono (keysIn_optTruthy _ _) ?_))
    (keysIn_mono (keysIn_optPresent _ _) ?_)) (keysIn_mono (keysIn_optPresent _ _) ?_))
    (keysIn_mono (keysIn_optPresent _ _) ?_)) (keysIn_mono (keysIn_optPresent _ _) ?_) <;>
    simp [fieldKeys]

theorem jKeys_append (m1 m2 : JMap) : jKeys (m1 ++ m2) = jKeys m1 ++ jKeys m2 := by
  simp [jKeys]

theorem jKeys_fieldSerialize_sublist (a : FieldAttrs) :
    List.Sublist (jKeys (fieldSerialize a)) fieldKeys := by
  unfold fieldSerialize fieldKeys
  rw [jKeys_append, jKeys_append, jKeys_append, jKeys_append, jKeys_append]
  have h1 := sublist_of_optTruthy "name" a.name
  have h2 := sublist_of_optTruthy "description" a.description
  have h3 := sublist_of_optPresent "required" a.required
  have h4 := sublist_of_optPresent "default" a.default
  have h5 := sublist_of_optPresent "enum" a.enum
  have h6 := sublist_of_optPresent "in" a.indata
  exact ((((h1.append h2).append h3).append h4).append h5).append h6

theorem jKeys_fieldSerialize_nodup (a : FieldAttrs) :
    (jKeys (fieldSerialize a)).Nodup :=
  List.Nodup.sublist (jKeys_fieldSerialize_sublist a) (by decide)

theorem dictInsert_of_absent {m : JMap} {k : String} (v : PVal)
    (h : dictHasKey m k = false) : dictInsert m k v = m ++ [(k, v)] := by
  simp [dictInsert, h]

theorem dictMerge_nil (a : JMap) : dictMerge a [] = a := rfl

/-- When no key of `b` occurs in `a` and `b` itself has no duplicate keys,
the Python dict merge `{**a, **b}` is plain concatenation. -/
theorem dictMerge_eq_append {b : JMap} (a : JMap)
    (hdisj : ∀ k : String, dictHasKey b k = true → dictHasKey a k = false)
    (hnodup : (jKeys b).Nodup) : dictMerge a b = a ++ b := by
  induction b generalizing a with
  | nil => simp [dictMerge]
  | cons p rest ih =>
    obtain ⟨k1, v1⟩ := p
    have hk1 : dictHasKey a k1 = false := by
      refine hdisj k1 ?_
      simp [dictHasKey]
    have step : dictMerge a ((k1, v1) :: rest) = dictMerge (a ++ [(k1, v1)]) rest := by
      simp [dictMerge, List.foldl_cons, dictInsert_of_absent v1 hk1]
    rw [step]
    rw [jKeys_cons, List.nodup_cons] at hnodup
    obtain ⟨hnotmem, hnodup1⟩ := hnodup
    have hdisj1 : ∀ k : String, dictHasKey rest k = true → dictHasKey (a ++ [(k1, v1)]) k = false := by
      intro k hk
      rw [dictHasKey_append]
      have ha : dictHasKey a k = false := by
        refine hdisj k ?_
        rw [dictHasKey_cons, hk]
        simp
      have hmem : k ∈ jKeys rest := (dictHasKey_iff_mem rest k).mp hk
      have hne : k1 ≠ k := fun he => hnotmem (he ▸ hmem)
      rw [Bool.or_eq_false_iff]
      exact ⟨ha, by simp [dictHasKey, hne]⟩
    rw [ih (a ++ [(k1, v1)]) hdisj1 hnodup1]
    simp

/-! ### Serializers as plain concatenation

The subclass serializers build `{type-specific keys, **super().serialize()}`.
Because the type-specific keys and the base `Field` keys are disjoint, each
Python dict display is provably a plain concatenation. -/

theorem hasKey_false_of_keysIn {m : JMap} {L : List String} (h : keysIn m L)
    {k : String} (hk : k ∉ L) : dictHasKey m k = false := by
  cases hcase : dictHasKey m k with
  | false => rfl
  | true => exact absurd (h k hcase) hk

theorem keysIn_single (k1 : String) (v1 : PVal) : keysIn [(k1, v1)] [k1] := by
  intro q hq
  simp [dictHasKey] at hq
  simp [hq]

theorem keysIn_pair (k1 k2 : String) (v1 v2 : PVal) :
    keysIn [(k1, v1), (k2, v2)] [k1, k2] := by
  intro q hq
  simp [dictHasKey] at hq
  rcases hq with h | h <;> simp [h]

theorem keysIn_addition (mn mx : Option PVal) :
    keysIn (optPresent "minimum" mn ++ optPresent "maximum" mx) ["minimum", "maximum"] :=
  keysIn_append (keysIn_mono (keysIn_optPresent _ _) (by simp))
    (keysIn_mono (keysIn_optPresent _ _) (by simp))

theorem nodup_addition (mn mx : Option PVal) :
    (jKeys (optPresent "minimum" mn ++ optPresent "maximum" mx)).Nodup := by
  rw [jKeys_append]
  exact List.Nodup.sublist
    ((sublist_of_optPresent "minimum" mn).append (sublist_of_optPresent "maximum" mx))
    (by decide)

/-- When all type-specific keys are in `typeKeys`, merging in the base
`Field.serialize` output is concatenation. -/
theorem dictMerge_base_eq_append (ts : JMap) (a : FieldAttrs) (h : keysIn ts typeKeys) :
    dictMerge ts (fieldSerialize a) = ts ++ fieldSerialize a := by
  refine dictMerge_eq_append ts ?_ (jKeys_fieldSerialize_nodup a)
  intro k hk
  have hmem := keysIn_fieldSerialize a k hk
  refine hasKey_false_of_keysIn h ?_
  fin_cases hmem <;> decide

theorem integerSerialize_eq (mn mx : Option PVal) (a : FieldAttrs) :
    integerSerialize mn mx a =
      ([("type", .str "integer"), ("format", .str "int64")] ++
        (optPresent "minimum" mn ++ optPresent "maximum" mx)) ++ fieldSerialize a := by
  unfold integerSerialize
  rw [dictMerge_eq_append _
    (fun k hk => hasKey_false_of_keysIn (keysIn_pair _ _ _ _)
      (by have := keysIn_addition mn mx k hk; fin_cases this <;> decide))
    (nodup_addition mn mx)]
  exact dictMerge_base_eq_append _ a
    (keysIn_append (keysIn_mono (keysIn_pair _ _ _ _) (by simp [typeKeys]))
      (keysIn_mono (keysIn_addition mn mx) (by simp [typeKeys])))

theorem floatSerialize_eq (mn mx : Option PVal) (a : FieldAttrs) :
    floatSerialize mn mx a =
      ([("type", .str "number"), ("format", .str "float")] ++
        (optPresent "minimum" mn ++ optPresent "maximum" mx)) ++ fieldSerialize a := by
  unfold floatSerialize
  rw [dictMerge_eq_append _
    (fun k hk => hasKey_false_of_keysIn (keysIn_pair _ _ _ _)
      (by have := keysIn_addition mn mx k hk; fin_cases this <;> decide))
    (nodup_addition mn mx)]
  exact dictMerge_base_eq_append _ a
    (keysIn_append (keysIn_mono (keysIn_pair _ _ _ _) (by simp [typeKeys]))
      (keysIn_mono (keysIn_addition mn mx) (by simp [typeKeys])))

theorem stringSerialize_eq (a : FieldAttrs) :
    stringSerialize a = [("type", .str "string")] ++ fieldSerialize a :=
  dictMerge_base_eq_append _ a (keysIn_mono (keysIn_single _ _) (by simp [typeKeys]))

theorem fileSerialize_eq (a : FieldAttrs) :
    fileSerialize a = [("type", .str "file")] ++ fieldSerialize a :=
  dictMerge_base_eq_append _ a (keysIn_mono (keysIn_single _ _) (by simp [typeKeys]))

theorem booleanSerialize_eq (a : FieldAttrs) :
    booleanSerialize a = [("type", .str "boolean")] ++ fieldSerialize a :=
  dictMerge_base_eq_append _ a (keysIn_mono (keysIn_single _ _) (by simp [typeKeys]))

theorem dateSerialize_eq (a : FieldAttrs) :
    dateSerialize a = [("type", .str "date")] ++ fieldSerialize a :=
  dictMerge_base_eq_append _ a (keysIn_mono (keysIn_single _ _) (by simp [typeKeys]))

theorem dateTimeSerialize_eq (a : FieldAttrs) :
    dateTimeSerialize a = [("type", .str "dateTime")] ++ fieldSerialize a :=
  dictMerge_base_eq_append _ a (keysIn_mono (keysIn_single _ _) (by simp [typeKeys]))

theorem objectSerializeNamed_eq (objectName : String) (a : FieldAttrs) :
    objectSerializeNamed objectName a =
      [("$ref", .str ("#/definitions/" ++ objectName))] ++ fieldSerialize a :=
  dictMerge_base_eq_append _ a (keysIn_mono (keysIn_single _ _) (by simp [typeKeys]))

theorem objectTypeSchema_eq (props : JMap) (a : FieldAttrs) :
    objectTypeSchema props a =
      [("type", .str "object"), ("properties", .dict props)] ++ fieldSerialize a :=
  dictMerge_base_eq_append _ a (keysIn_mono (keysIn_pair _ _ _ _) (by simp [typeKeys]))

/-- No type-specific key of any variant collides with a base `Field` key. -/
theorem typeKeys_disjoint_fieldKeys :
    ∀ k : String, k ∈ typeKeys → k ∉ fieldKeys := by decide

/-! ### Lookup characterization of `Field.serialize` -/

theorem dictHasKey_optTruthy_ne {k2 k : String} (v : Option PVal) (h : k2 ≠ k) :
    dictHasKey (optTruthy k2 v) k = false := by
  cases v with
  | none => rfl
  | some x => by_cases ht : truthy x <;> simp [optTruthy, ht, dictHasKey, h]

theorem dictHasKey_optPresent_ne {k2 k : String} (v : Option PVal) (h : k2 ≠ k) :
    dictHasKey (optPresent k2 v) k = false := by
  cases v with
  | none => rfl
  | some x => simp [optPresent, dictHasKey, h]

theorem jLookup_append_right_absent {m2 : JMap} (k : String) (m1 : JMap)
    (h : dictHasKey m2 k = false) : jLookup k (m1 ++ m2) = jLookup k m1 := by
  rw [jLookup_append]
  cases h1 : jLookup k m1 <;> simp [jLookup_eq_none_of_hasKey_false _ _ h]

theorem jLookup_append_left_absent (k : String) {m1 : JMap} (m2 : JMap)
    (h : dictHasKey m1 k = false) : jLookup k (m1 ++ m2) = jLookup k m2 := by
  rw [jLookup_append, jLookup_eq_none_of_hasKey_false _ _ h]

theorem jLookup_optTruthy_self (k : String) (v : Option PVal) :
    jLookup k (optTruthy k v) =
      match v with
      | some x => if truthy x then some x else none
      | none => none := by
  cases v with
  | none => rfl
  | some x => by_cases ht : truthy x <;> simp [optTruthy, ht, jLookup]

theorem jLookup_optPresent_self (k : String) (v : Option PVal) :
    jLookup k (optPresent k v) = v := by
  cases v <;> simp [optPresent, jLookup]

theorem jLookup_fieldSerialize_name (a : FieldAttrs) :
    jLookup "name" (fieldSerialize a) =
      match a.name with
      | some v => if truthy v then some v else none
      | none => none := by
  unfold fieldSerialize
  rw [jLookup_append_right_absent _ _ (dictHasKey_optPresent_ne _ (by decide)),
    jLookup_append_right_absent _ _ (dictHasKey_optPresent_ne _ (by decide)),
    jLookup_append_right_absent _ _ (dictHasKey_optPresent_ne _ (by decide)),
    jLookup_append_right_absent _ _ (dictHasKey_optPresent_ne _ (by decide)),
    jLookup_append_right_absent _ _ (dictHasKey_optTruthy_ne _ (by decide)),
    jLookup_optTruthy_self]

theorem jLookup_fieldSerialize_description (a : FieldAttrs) :
    jLookup "description" (fieldSerialize a) =
      match a.description with
      | some v => if truthy v then some v else none
      | none => none := by
  unfold fieldSerialize
  rw [jLookup_append_right_absent _ _ (dictHasKey_optPresent_ne _ (by decide)),
    jLookup_append_right_absent _ _ (dictHasKey_optPresent_ne _ (by decide)),
    jLookup_append_right_absent _ _ (dictHasKey_optPresent_ne _ (by decide)),
    jLookup_append_right_absent _ _ (dictHasKey_optPresent_ne _ (by decide)),
    jLookup_append_left_absent _ _ (dictHasKey_optTruthy_ne _ (by decide)),
    jLookup_optTruthy_self]

theorem jLookup_fieldSerialize_required (a : FieldAttrs) :
    jLookup "required" (fieldSerialize a) = a.required := by
  unfold fieldSerialize
  rw [jLookup_append_right_absent _ _ (dictHasKey_optPresent_ne _ (by decide)),
    jLookup_append_right_absent _ _ (dictHasKey_optPresent_ne _ (by decide)),
    jLookup_append_right_absent _ _ (dictHasKey_optPresent_ne _ (by decide)),
    jLookup_append_left_absent _ _ (by
      rw [dictHasKey_append, dictHasKey_optTruthy_ne _ (by decide),
        dictHasKey_optTruthy_ne _ (by decide)]
      rfl),
    jLookup_optPresent_self]

theorem jLookup_fieldSerialize_default (a : FieldAttrs) :
    jLookup "default" (fieldSerialize a) = a.default := by
  unfold fieldSerialize
  rw [jLookup_append_right_absent _ _ (dictHasKey_optPresent_ne _ (by decide)),
    jLookup_append_right_absent _ _ (dictHasKey_optPresent_ne _ (by decide)),
    jLookup_append_left_absent _ _ (by
      rw [dictHasKey_append, dictHasKey_append, dictHasKey_optTruthy_ne _ (by decide),
        dictHasKey_optTruthy_ne _ (by decide), dictHasKey_optPresent_ne _ (by decide)]
      rfl),
    jLookup_optPresent_self]

theorem jLookup_fieldSerialize_enum (a : FieldAttrs) :
    jLookup "enum" (fieldSerialize a) = a.enum := by
  unfold fieldSerialize
  rw [jLookup_append_right_absent _ _ (dictHasKey_optPresent_ne _ (by decide)),
    jLookup_append_left_absent _ _ (by
      rw [dictHasKey_append, dictHasKey_append, dictHasKey_append,
        dictHasKey_optTruthy_ne _ (by decide), dictHasKey_optTruthy_ne _ (by decide),
        dictHasKey_optPresent_ne _ (by decide), dictHasKey_optPresent_ne _ (by decide)]
      rfl),
    jLookup_optPresent_self]

theorem jLookup_fieldSerialize_in (a : FieldAttrs) :
    jLookup "in" (fieldSerialize a) = a.indata := by
  unfold fieldSerialize
  rw [jLookup_append_left_absent _ _ (by
      rw [dictHasKey_append, dictHasKey_append, dictHasKey_append, dictHasKey_append,
        dictHasKey_optTruthy_ne _ (by decide), dictHasKey_optTruthy_ne _ (by decide),
        dictHasKey_optPresent_ne _ (by decide), dictHasKey_optPresent_ne _ (by decide),
        dictHasKey_optPresent_ne _ (by decide)]
      rfl),
    jLookup_optPresent_self]

/-! ### Registry-count invariant

Every write to the `definitions` registry is a Python dict assignment
(`defsAssign`), so for any class reference the entry count can only move from
`0` to `1` and then stays put.  `Rcount a b` relates the count before and
after one serializer step. -/

theorem Rcount_refl (a : Nat) : Rcount a a := .inl rfl

theorem Rcount_trans {a b c : Nat} (h1 : Rcount a b) (h2 : Rcount b c) : Rcount a c := by
  unfold Rcount at h1 h2 ⊢
  omega

theorem countRef_eq_zero_of_hasRef_false {defs : Defs} {r : Nat}
    (h : hasRef defs r = false) : countRef defs r = 0 := by
  rw [countRef, List.countP_eq_zero]
  intro e he hx
  have htrue : hasRef defs r = true := by
    rw [hasRef, List.any_eq_true]
    exact ⟨e, he, hx⟩
  rw [htrue] at h
  cases h

theorem hasRef_true_of_countRef_ne_zero {defs : Defs} {r : Nat}
    (h : countRef defs r ≠ 0) : hasRef defs r = true := by
  cases hc : hasRef defs r with
  | true => rfl
  | false => exact absurd (countRef_eq_zero_of_hasRef_false hc) h

theorem countRef_defsAssign (defs : Defs) (r : Nat) (e : ObjInst × JMap) (k : Nat) :
    Rcount (countRef defs k) (countRef (defsAssign defs r e) k) := by
  unfold defsAssign
  by_cases h : hasRef defs r
  · rw [if_pos h]
    left
    unfold countRef
    rw [List.countP_map]
    refine List.countP_congr ?_
    intro x _
    by_cases hx : x.1 = r <;> simp [hx]
  · rw [if_neg h]
    unfold countRef
    rw [List.countP_append]
    by_cases hrk : r = k
    · subst hrk
      right
      have h0 : countRef defs r = 0 :=
        countRef_eq_zero_of_hasRef_false (Bool.eq_false_iff.mpr h)
      unfold countRef at h0
      simp [h0, List.countP_cons]
    · left
      simp [List.countP_cons, hrk]

mutual

theorem rcount_serializeSchema (s : PySchema) (defs : Defs) (k : Nat) :
    Rcount (countRef defs k) (countRef (serializeSchema s defs).2 k) := by
  cases s with
  | typeRef t =>
    cases t with
    | fieldType v =>
      cases v with
      | dictionary =>
        simp only [serializeSchema]
        exact rcount_dictionarySerialize [] noAttrs defs k
      | list =>
        simp only [serializeSchema]
        exact rcount_listSerialize [] defs k
      | _ =>
        simp only [serializeSchema]
        exact Rcount_refl _
    | dictType =>
      simp only [serializeSchema]
      exact rcount_dictionarySerialize [] noAttrs defs k
    | listType =>
      simp only [serializeSchema]
      exact rcount_listSerialize [] defs k
    | userClass r n attrs =>
      simp only [serializeSchema]
      split
      · rename_i e d heq
        have H := rcount_objectInit r n attrs none noAttrs defs k
        rw [heq] at H
        simpa using H
      · rename_i inst d heq
        have H := rcount_objectInit r n attrs none noAttrs defs k
        rw [heq] at H
        simpa using H
    | _ =>
      simp only [serializeSchema]
      exact Rcount_refl _
  | fieldInst kd a =>
    simp only [serializeSchema]
    exact rcount_fieldInstSerialize kd a defs k
  | pyDict fields =>
    simp only [serializeSchema]
    exact rcount_dictionarySerialize fields noAttrs defs k
  | pyList items =>
    simp only [serializeSchema]
    exact rcount_listSerialize items defs k
  | other =>
    simp only [serializeSchema]
    exact Rcount_refl _
termination_by (sizeOf s, 1)

theorem rcount_fieldInstSerialize (kd : FieldKind) (a : FieldAttrs) (defs : Defs) (k : Nat) :
    Rcount (countRef defs k) (countRef (fieldInstSerialize kd a defs).2 k) := by
  cases kd with
  | dictionary fields =>
    simp only [fieldInstSerialize]
    exact rcount_dictionarySerialize fields a defs k
  | objList items =>
    simp only [fieldInstSerialize]
    exact rcount_listSerialize items defs k
  | _ =>
    simp only [fieldInstSerialize]
    exact Rcount_refl _
termination_by (sizeOf kd, 1)

theorem rcount_dictionarySerialize (fields : List (String × PySchema)) (a : FieldAttrs)
    (defs : Defs) (k : Nat) :
    Rcount (countRef defs k) (countRef (dictionarySerialize fields a defs).2 k) := by
  simp only [dictionarySerialize]
  split
  · rename_i e d heq
    have H := rcount_dictProps fields defs k
    rw [heq] at H
    simpa using H
  · rename_i props d heq
    have H := rcount_dictProps fields defs k
    rw [heq] at H
    simpa using H
termination_by (sizeOf fields, 2)

theorem rcount_dictProps (l : List (String × PySchema)) (defs : Defs) (k : Nat) :
    Rcount (countRef defs k) (countRef (dictProps l defs).2 k) := by
  cases l with
  | nil =>
    simp only [dictProps]
    exact Rcount_refl _
  | cons p rest =>
    obtain ⟨k1, v⟩ := p
    simp only [dictProps]
    split
    · rename_i e d heq
      have H1 := rcount_serializeSchema v defs k
      rw [heq] at H1
      simpa using H1
    · rename_i m d heq
      have H1 := rcount_serializeSchema v defs k
      rw [heq] at H1
      split
      · rename_i e2 d2 heq2
        have H2 := rcount_dictProps rest d k
        rw [heq2] at H2
        simpa using Rcount_trans H1 H2
      · rename_i ms d2 heq2
        have H2 := rcount_dictProps rest d k
        rw [heq2] at H2
        simpa using Rcount_trans H1 H2
termination_by (sizeOf l, 1)

theorem rcount_objectProps (l : List (String × PySchema)) (defs : Defs) (k : Nat) :
    Rcount (countRef defs k) (countRef (objectProps l defs).2 k) := by
  cases l with
  | nil =>
    simp only [objectProps]
    exact Rcount_refl _
  | cons p rest =>
    obtain ⟨k1, v⟩ := p
    by_cases hu : startsUnderscore k1
    · simp only [objectProps]
      rw [if_pos hu]
      exact rcount_objectProps rest defs k
    · simp only [objectProps]
      rw [if_neg hu]
      split
      · rename_i e d heq
        have H1 := rcount_serializeSchema v defs k
        rw [heq] at H1
        simpa using H1
      · rename_i m d heq
        have H1 := rcount_serializeSchema v defs k
        rw [heq] at H1
        split
        · rename_i e2 d2 heq2
          have H2 := rcount_objectProps rest d k
          rw [heq2] at H2
          simpa using Rcount_trans H1 H2
        · rename_i ms d2 heq2
          have H2 := rcount_objectProps rest d k
          rw [heq2] at H2
          simpa using Rcount_trans H1 H2
termination_by (sizeOf l, 1)

theorem rcount_listSerialize (l : List PySchema) (defs : Defs) (k : Nat) :
    Rcount (countRef defs k) (countRef (listSerialize l defs).2 k) := by
  cases l with
  | nil =>
    simp only [listSerialize]
    exact Rcount_refl _
  | cons x rest =>
    cases rest with
    | nil =>
      simp only [listSerialize]
      split
      · rename_i e d heq
        have H1 := rcount_serializeSchema x defs k
        rw [heq] at H1
        simpa using H1
      · rename_i m d heq
        have H1 := rcount_serializeSchema x defs k
        rw [heq] at H1
        simpa using H1
    | cons y rest2 =>
      simp only [listSerialize]
      exact Rcount_refl _
termination_by (sizeOf l, 2)

theorem rcount_objectInit (r : Nat) (clsName : String)
    (clsAttrs : List (String × PySchema)) (objectName : Option String)
    (a : FieldAttrs) (defs : Defs) (k : Nat) :
    Rcount (countRef defs k) (countRef (objectInit r clsName clsAttrs objectName a defs).2 k) := by
  by_cases h : hasRef defs r
  · simp only [objectInit]
    rw [if_pos h]
    exact Rcount_refl _
  · simp only [objectInit]
    rw [if_neg h]
    split
    · rename_i e d heq
      have H1 := rcount_objectProps clsAttrs defs k
      rw [heq] at H1
      simpa using H1
    · rename_i props d heq
      have H1 := rcount_objectProps clsAttrs defs k
      rw [heq] at H1
      simpa using Rcount_trans H1 (countRef_defsAssign d r _ k)
termination_by (sizeOf clsAttrs, 3)

end

/-! ### Claim theorems -/

/-- C5: for each primitive type reference among int, str, bool, float, date
and datetime, the resolver returns a mapping with a "type" key (and for some
kinds a "format" key) and with neither a "properties" nor an "items" key. -/
theorem C5_primitive_resolution (defs : Defs) :
    (serializeSchema (.typeRef .intType) defs
        = (.ok [("type", PVal.str "integer"), ("format", PVal.str "int64")], defs)) ∧
    (serializeSchema (.typeRef .strType) defs = (.ok [("type", PVal.str "string")], defs)) ∧
    (serializeSchema (.typeRef .boolType) defs = (.ok [("type", PVal.str "boolean")], defs)) ∧
    (serializeSchema (.typeRef .floatType) defs
        = (.ok [("type", PVal.str "number"), ("format", PVal.str "float")], defs)) ∧
    (serializeSchema (.typeRef .dateType) defs = (.ok [("type", PVal.str "date")], defs)) ∧
    (serializeSchema (.typeRef .datetimeType) defs
        = (.ok [("type", PVal.str "dateTime")], defs)) ∧
    (jLookup "type" [("type", PVal.str "integer"), ("format", PVal.str "int64")]
        = some (PVal.str "integer")) ∧
    (jLookup "properties" [("type", PVal.str "integer"), ("format", PVal.str "int64")] = none) ∧
    (jLookup "items" [("type", PVal.str "integer"), ("format", PVal.str "int64")] = none) ∧
    (jLookup "type" [("type", PVal.str "string")] = some (PVal.str "string")) ∧
    (jLookup "properties" [("type", PVal.str "string")] = none) ∧
    (jLookup "items" [("type", PVal.str "string")] = none) ∧
    (jLookup "type" [("type", PVal.str "boolean")] = some (PVal.str "boolean")) ∧
    (jLookup "properties" [("type", PVal.str "boolean")] = none) ∧
    (jLookup "items" [("type", PVal.str "boolean")] = none) ∧
    (jLookup "type" [("type", PVal.str "number"), ("format", PVal.str "float")]
        = some (PVal.str "number")) ∧
    (jLookup "properties" [("type", PVal.str "number"), ("format", PVal.str "float")] = none) ∧
    (jLookup "items" [("type", PVal.str "number"), ("format", PVal.str "float")] = none) ∧
    (jLookup "type" [("type", PVal.str "date")] = some (PVal.str "date")) ∧
    (jLookup "properties" [("type", PVal.str "date")] = none) ∧
    (jLookup "items" [("type", PVal.str "date")] = none) ∧
    (jLookup "type" [("type", PVal.str "dateTime")] = some (PVal.str "dateTime")) ∧
    (jLookup "properties" [("type", PVal.str "dateTime")] = none) ∧
    (jLookup "items" [("type", PVal.str "dateTime")] = none) := by
  refine ⟨?_, ?_, ?_, ?_, ?_, ?_, rfl, rfl, rfl, rfl, rfl, rfl, rfl, rfl, rfl, rfl, rfl,
    rfl, rfl, rfl, rfl, rfl, rfl, rfl⟩ <;>
    (simp only [serializeSchema]; rfl)

/-- C6: an input that is neither a type reference, nor a `Field` instance,
nor a mapping, nor a sequence resolves to the empty mapping without raising. -/
theorem C6_fallback_empty (defs : Defs) :
    serializeSchema .other defs = (.ok [], defs) := by
  simp only [serializeSchema]

/-- C2 (failing case): `List.serialize` with zero items does not produce an
empty/absent items schema; it reads the local variable `items` before
assignment and raises `UnboundLocalError`.  The same happens for
`serialize_schema(list)` and for `List` given as a type reference.  With
exactly one item, `items` is that item's resolution, and with two or more it
is `Tuple(self.items).serialize()`, as the claim states. -/
theorem C2_empty_list_raises (defs : Defs) :
    (listSerialize [] defs = (.error .unboundLocal, defs)) ∧
    (serializeSchema (.typeRef .listType) defs = (.error .unboundLocal, defs)) ∧
    (serializeSchema (.typeRef (.fieldType .list)) defs = (.error .unboundLocal, defs)) ∧
    (fieldInstSerialize (.objList []) noAttrs defs = (.error .unboundLocal, defs)) ∧
    (∀ x : PySchema, listSerialize [x] defs =
      (match serializeSchema x defs with
       | (.error e, d) => (.error e, d)
       | (.ok m, d) => (.ok [("type", PVal.str "array"), ("items", PVal.dict m)], d))) ∧
    (∀ (x y : PySchema) (rest : List PySchema),
      listSerialize (x :: y :: rest) defs
        = (.ok [("type", PVal.str "array"),
                ("items", PVal.dict (tupleWrapItems (x :: y :: rest)))], defs)) := by
  refine ⟨?_, ?_, ?_, ?_, fun x => ?_, fun x y rest => ?_⟩ <;>
    simp only [serializeSchema, fieldInstSerialize, listSerialize]

/-- C7: `summary("A")` then `tag("x")` then `tag("y")` yields
`summary == "A"` and `tags == ["x", "y"]`; a later `description("B")` sets
`description` and leaves `summary` and `tags` unchanged. -/
theorem C7_annotation_composition (A x y B : PVal) :
    (tagAnn y (tagAnn x (summaryAnn A RouteSpec.init))).summary = some A ∧
    (tagAnn y (tagAnn x (summaryAnn A RouteSpec.init))).tags = [x, y] ∧
    (descriptionAnn B (tagAnn y (tagAnn x (summaryAnn A RouteSpec.init)))).description
      = some B ∧
    (descriptionAnn B (tagAnn y (tagAnn x (summaryAnn A RouteSpec.init)))).summary = some A ∧
    (descriptionAnn B (tagAnn y (tagAnn x (summaryAnn A RouteSpec.init)))).tags = [x, y] :=
  ⟨rfl, rfl, rfl, rfl, rfl⟩

/-- C9: `consumes` with exactly one descriptor stores the descriptor itself,
with two or more stores the ordered sequence, and with zero is the identity
on the whole record; `headers` collapses the same way. -/
theorem C9_consumes_headers_collapse (d d1 d2 : PVal) (rest : List PVal)
    (ct : Option PVal) (rs : RouteSpec) :
    (consumesAnn [d] ct rs).consumes = some d ∧
    (consumesAnn (d1 :: d2 :: rest) ct rs).consumes = some (.list (d1 :: d2 :: rest)) ∧
    consumesAnn [] ct rs = rs ∧
    (headersAnn [d] rs).headers = some d ∧
    (headersAnn (d1 :: d2 :: rest) rs).headers = some (.list (d1 :: d2 :: rest)) ∧
    headersAnn [] rs = rs :=
  ⟨rfl, rfl, rfl, rfl, rfl, rfl⟩

/-- C10: `Field.serialize` tests `name` and `description` by truthiness
(so an empty string is dropped even though present), while `required`,
`default`, `enum` and `in` are emitted exactly when not `None`
(so `required=False` is emitted). -/
theorem C10_truthiness_vs_presence (n d r df e i : Option PVal) :
    (jLookup "name" (fieldSerialize (.mk n d r df e i)) =
      (match n with
       | some v => if truthy v then some v else none
       | none => none)) ∧
    (jLookup "description" (fieldSerialize (.mk n d r df e i)) =
      (match d with
       | some v => if truthy v then some v else none
       | none => none)) ∧
    (jLookup "required" (fieldSerialize (.mk n d r df e i)) = r) ∧
    (jLookup "default" (fieldSerialize (.mk n d r df e i)) = df) ∧
    (jLookup "enum" (fieldSerialize (.mk n d r df e i)) = e) ∧
    (jLookup "in" (fieldSerialize (.mk n d r df e i)) = i) ∧
    (jLookup "name"
        (fieldSerialize (.mk (some (.str "")) none none none none none)) = none) ∧
    (jLookup "description"
        (fieldSerialize (.mk none (some (.str "")) none none none none)) = none) ∧
    (jLookup "required"
        (fieldSerialize (.mk none none (some (.bool false)) none none none))
      = some (.bool false)) :=
  ⟨jLookup_fieldSerialize_name _, jLookup_fieldSerialize_description _,
   jLookup_fieldSerialize_required _, jLookup_fieldSerialize_default _,
   jLookup_fieldSerialize_enum _, jLookup_fieldSerialize_in _, rfl, rfl, rfl⟩

/-- Lookup of "enum" in `Integer.serialize` output is exactly the instance's
`enum` attribute. -/
theorem jLookup_enum_integerSerialize (mn mx : Option PVal) (a : FieldAttrs) :
    jLookup "enum" (integerSerialize mn mx a) = a.enum := by
  rw [integerSerialize_eq,
    jLookup_append_left_absent _ _ (by
      rw [dictHasKey_append, dictHasKey_append, dictHasKey_optPresent_ne _ (by decide),
        dictHasKey_optPresent_ne _ (by decide)]
      rfl),
    jLookup_fieldSerialize_enum]

/-- Lookup of "enum" in `Float.serialize` output is exactly the instance's
`enum` attribute. -/
theorem jLookup_enum_floatSerialize (mn mx : Option PVal) (a : FieldAttrs) :
    jLookup "enum" (floatSerialize mn mx a) = a.enum := by
  rw [floatSerialize_eq,
    jLookup_append_left_absent _ _ (by
      rw [dictHasKey_append, dictHasKey_append, dictHasKey_optPresent_ne _ (by decide),
        dictHasKey_optPresent_ne _ (by decide)]
      rfl),
    jLookup_fieldSerialize_enum]

/-- Lookup of "enum" in `String.serialize` output is exactly the instance's
`enum` attribute (the `String` subclass does keep a passed `enum`). -/
theorem jLookup_enum_stringSerialize (a : FieldAttrs) :
    jLookup "enum" (stringSerialize a) = a.enum := by
  rw [stringSerialize_eq, jLookup_append_left_absent _ _ (by rfl),
    jLookup_fieldSerialize_enum]

/-- C8 (failing case): an `Integer` or `Float` constructed with an `enum`
argument serializes WITHOUT an "enum" key, because both constructors call
`super().__init__(description, required, name, default)` and drop `enum`
(a `String` constructed with `enum` does serialize it). -/
theorem C8_numeric_enum_dropped (d r n df mn mx : Option PVal) (E : PVal) (defs : Defs) :
    (fieldInstSerialize (integerInit d r n df (some E) mn mx).1
        (integerInit d r n df (some E) mn mx).2 defs
      = (.ok (integerSerialize mn mx (.mk n d r df none none)), defs)) ∧
    (jLookup "enum" (integerSerialize mn mx (.mk n d r df none none)) = none) ∧
    (fieldInstSerialize (floatInit d r n df (some E) mn mx).1
        (floatInit d r n df (some E) mn mx).2 defs
      = (.ok (floatSerialize mn mx (.mk n d r df none none)), defs)) ∧
    (jLookup "enum" (floatSerialize mn mx (.mk n d r df none none)) = none) ∧
    (jLookup "enum" (stringSerialize (.mk n d r df (some E) none)) = some E) := by
  refine ⟨?_, ?_, ?_, ?_, ?_⟩
  · simp only [integerInit, fieldInstSerialize]
  · exact jLookup_enum_integerSerialize mn mx (.mk n d r df none none)
  · simp only [floatInit, fieldInstSerialize]
  · exact jLookup_enum_floatSerialize mn mx (.mk n d r df none none)
  · exact jLookup_enum_stringSerialize (.mk n d r df (some E) none)

/-- C4 counterexample: a `List` instance carrying a base `Field` attribute
(`description`) serializes WITHOUT it — `List.serialize` returns only
`{"type": "array", "items": ...}` and never merges `super().serialize()`,
so the claimed composition rule fails for the `List` variant. -/
theorem C4_counterexample_list_drops_base :
    (fieldInstSerialize (.objList [.typeRef .intType])
        (.mk none (some (.str "a description")) none none none none) []
      = (.ok [("type", PVal.str "array"),
              ("items", PVal.dict [("type", PVal.str "integer"),
                                   ("format", PVal.str "int64")])], [])) ∧
    (jLookup "description"
        [("type", PVal.str "array"),
         ("items", PVal.dict [("type", PVal.str "integer"), ("format", PVal.str "int64")])]
      = none) ∧
    (jLookup "description"
        (fieldSerialize (.mk none (some (.str "a description")) none none none none))
      = some (.str "a description")) := by
  refine ⟨?_, rfl, rfl⟩
  simp only [fieldInstSerialize, listSerialize, serializeSchema]
  rfl

/-- C4 (amended): every variant except `List` serializes to its unconditional
type-specific keys followed by the base `Field`'s present-attribute keys, and
no type-specific key can collide with a base key (so no conflict ever arises);
`List.serialize` ignores the base attributes entirely. -/
theorem C4_amended_composition (mn mx : Option PVal) (a a2 : FieldAttrs) (defs : Defs)
    (fields : List (String × PySchema)) (items : List PySchema)
    (r : Nat) (cn : String) (ca : List (String × PySchema)) (objName : String) :
    (fieldInstSerialize .field a defs = (.ok ([] ++ fieldSerialize a), defs)) ∧
    (fieldInstSerialize .tuple a defs = (.ok ([] ++ fieldSerialize a), defs)) ∧
    (fieldInstSerialize (.integer mn mx) a defs
      = (.ok (([("type", .str "integer"), ("format", .str "int64")] ++
          (optPresent "minimum" mn ++ optPresent "maximum" mx)) ++ fieldSerialize a), defs)) ∧
    (fieldInstSerialize (.float mn mx) a defs
      = (.ok (([("type", .str "number"), ("format", .str "float")] ++
          (optPresent "minimum" mn ++ optPresent "maximum" mx)) ++ fieldSerialize a), defs)) ∧
    (fieldInstSerialize .string a defs
      = (.ok ([("type", .str "string")] ++ fieldSerialize a), defs)) ∧
    (fieldInstSerialize .file a defs
      = (.ok ([("type", .str "file")] ++ fieldSerialize a), defs)) ∧
    (fieldInstSerialize .boolean a defs
      = (.ok ([("type", .str "boolean")] ++ fieldSerialize a), defs)) ∧
    (fieldInstSerialize .date a defs
      = (.ok ([("type", .str "date")] ++ fieldSerialize a), defs)) ∧
    (fieldInstSerialize .dateTime a defs
      = (.ok ([("type", .str "dateTime")] ++ fieldSerialize a), defs)) ∧
    (fieldInstSerialize (.dictionary fields) a defs
      = (match dictProps fields defs with
         | (.error e, d) => (.error e, d)
         | (.ok props, d) =>
           (.ok ([("type", .str "object"), ("properties", .dict props)] ++ fieldSerialize a),
            d))) ∧
    (fieldInstSerialize (.object r cn ca objName) a defs
      = (.ok ([("$ref", .str ("#/definitions/" ++ objName))] ++ fieldSerialize a), defs)) ∧
    List.Disjoint (jKeys (fieldSerialize a)) typeKeys ∧
    (fieldInstSerialize (.objList items) a defs = fieldInstSerialize (.objList items) a2 defs) := by
  refine ⟨?_, ?_, ?_, ?_, ?_, ?_, ?_, ?_, ?_, ?_, ?_, ?_, ?_⟩
  · simp only [fieldInstSerialize, List.nil_append]
  · simp only [fieldInstSerialize, List.nil_append]
  · simp only [fieldInstSerialize]
    rw [integerSerialize_eq]
  · simp only [fieldInstSerialize]
    rw [floatSerialize_eq]
  · simp only [fieldInstSerialize]
    rw [stringSerialize_eq]
  · simp only [fieldInstSerialize]
    rw [fileSerialize_eq]
  · simp only [fieldInstSerialize]
    rw [booleanSerialize_eq]
  · simp only [fieldInstSerialize]
    rw [dateSerialize_eq]
  · simp only [fieldInstSerialize]
    rw [dateTimeSerialize_eq]
  · simp only [fieldInstSerialize, dictionarySerialize]
    rcases h : dictProps fields defs with ⟨res, d⟩
    cases res with
    | error e => rfl
    | ok props =>
      simp only
      rw [objectTypeSchema_eq]
  · simp only [fieldInstSerialize]
    rw [objectSerializeNamed_eq]
  · intro k hk
    have hmem := keysIn_fieldSerialize a k ((dictHasKey_iff_mem _ _).mpr hk)
    fin_cases hmem <;> decide
  · simp only [fieldInstSerialize]

/-- C3 counterexample: after `route(consumes_content_type=..., produces_content_type=...)`
has set both content types, a later `consumes(X)` (respectively `produces(X)`)
call with descriptors but an absent `content_type` argument ERASES the stored
value, resetting it to `None`. -/
theorem C3_counterexample_content_type_erased :
    ((routeAnn none none none none (some (PVal.str "text/plain"))
        (some (PVal.str "text/html")) none none RouteSpec.init).consumes_content_type
      = some (PVal.str "text/plain")) ∧
    ((routeAnn none none none none (some (PVal.str "text/plain"))
        (some (PVal.str "text/html")) none none RouteSpec.init).produces_content_type
      = some (PVal.str "text/html")) ∧
    ((consumesAnn [PVal.str "application/json"] none
        (routeAnn none none none none (some (PVal.str "text/plain"))
          (some (PVal.str "text/html")) none none RouteSpec.init)).consumes_content_type
      = none) ∧
    ((producesAnn [PVal.str "application/json"] (PVal.str "") none none
        (routeAnn none none none none (some (PVal.str "text/plain"))
          (some (PVal.str "text/html")) none none RouteSpec.init)).produces_content_type
      = none) :=
  ⟨rfl, rfl, rfl, rfl⟩

/-- Field-by-field characterization of the `route(...)` decorator: every field
explicitly supplied is overwritten, every other field is untouched. -/
theorem routeAnn_spec (s d c p cct pct h hd : Option PVal) (rs : RouteSpec) :
    ((routeAnn s d c p cct pct h hd rs).summary
      = (match s with | some v => some v | none => rs.summary)) ∧
    ((routeAnn s d c p cct pct h hd rs).description
      = (match d with | some v => some v | none => rs.description)) ∧
    ((routeAnn s d c p cct pct h hd rs).consumes
      = (match c with | some v => some v | none => rs.consumes)) ∧
    ((routeAnn s d c p cct pct h hd rs).produces
      = (match p with | some v => some v | none => rs.produces)) ∧
    ((routeAnn s d c p cct pct h hd rs).consumes_content_type
      = (match cct with | some v => some v | none => rs.consumes_content_type)) ∧
    ((routeAnn s d c p cct pct h hd rs).produces_content_type
      = (match pct with | some v => some v | none => rs.produces_content_type)) ∧
    ((routeAnn s d c p cct pct h hd rs).hide
      = (match h with | some v => some v | none => rs.hide)) ∧
    ((routeAnn s d c p cct pct h hd rs).headers
      = (match hd with | some v => some v | none => rs.headers)) ∧
    ((routeAnn s d c p cct pct h hd rs).tags = rs.tags) ∧
    ((routeAnn s d c p cct pct h hd rs).operation = rs.operation) ∧
    ((routeAnn s d c p cct pct h hd rs).blueprint = rs.blueprint) ∧
    ((routeAnn s d c p cct pct h hd rs).produces_description = rs.produces_description) ∧
    ((routeAnn s d c p cct pct h hd rs).produces_examples = rs.produces_examples) := by
  cases s <;> cases d <;> cases c <;> cases p <;> cases cct <;> cases pct <;>
    cases h <;> cases hd <;>
    exact ⟨rfl, rfl, rfl, rfl, rfl, rfl, rfl, rfl, rfl, rfl, rfl, rfl, rfl⟩

/-- C3 (amended): `route`, `summary`, `description` and `hide` overwrite only
the fields they explicitly set, leaving every other field unchanged; but
`consumes` (resp. `produces`) with at least one descriptor also overwrites
`consumes_content_type` (resp. `produces_content_type`,
`produces_description`, `produces_examples`) with its keyword arguments as
given — an absent `content_type` therefore resets the field to `None`.
All other fields are untouched by `consumes`/`produces`. -/
theorem C3_amended_frame :
    (∀ (s d c p cct pct h hd : Option PVal) (rs : RouteSpec),
      ((routeAnn s d c p cct pct h hd rs).summary
        = (match s with | some v => some v | none => rs.summary)) ∧
      ((routeAnn s d c p cct pct h hd rs).description
        = (match d with | some v => some v | none => rs.description)) ∧
      ((routeAnn s d c p cct pct h hd rs).consumes
        = (match c with | some v => some v | none => rs.consumes)) ∧
      ((routeAnn s d c p cct pct h hd rs).produces
        = (match p with | some v => some v | none => rs.produces)) ∧
      ((routeAnn s d c p cct pct h hd rs).consumes_content_type
        = (match cct with | some v => some v | none => rs.consumes_content_type)) ∧
      ((routeAnn s d c p cct pct h hd rs).produces_content_type
        = (match pct with | some v => some v | none => rs.produces_content_type)) ∧
      ((routeAnn s d c p cct pct h hd rs).hide
        = (match h with | some v => some v | none => rs.hide)) ∧
      ((routeAnn s d c p cct pct h hd rs).headers
        = (match hd with | some v => some v | none => rs.headers)) ∧
      ((routeAnn s d c p cct pct h hd rs).tags = rs.tags) ∧
      ((routeAnn s d c p cct pct h hd rs).operation = rs.operation) ∧
      ((routeAnn s d c p cct pct h hd rs).blueprint = rs.blueprint) ∧
      ((routeAnn s d c p cct pct h hd rs).produces_description = rs.produces_description) ∧
      ((routeAnn s d c p cct pct h hd rs).produces_examples = rs.produces_examples)) ∧
    (∀ (t : PVal) (rs : RouteSpec),
      ((summaryAnn t rs).summary = some t) ∧
      ((summaryAnn t rs).description = rs.description) ∧
      ((summaryAnn t rs).consumes = rs.consumes) ∧
      ((summaryAnn t rs).consumes_content_type = rs.consumes_content_type) ∧
      ((summaryAnn t rs).produces = rs.produces) ∧
      ((summaryAnn t rs).produces_content_type = rs.produces_content_type) ∧
      ((summaryAnn t rs).operation = rs.operation) ∧
      ((summaryAnn t rs).blueprint = rs.blueprint) ∧
      ((summaryAnn t rs).tags = rs.tags) ∧
      ((summaryAnn t rs).hide = rs.hide) ∧
      ((summaryAnn t rs).produces_description = rs.produces_description) ∧
      ((summaryAnn t rs).produces_examples = rs.produces_examples) ∧
      ((summaryAnn t rs).headers = rs.headers)) ∧
    (∀ (t : PVal) (rs : RouteSpec),
      ((descriptionAnn t rs).description = some t) ∧
      ((descriptionAnn t rs).summary = rs.summary) ∧
      ((descriptionAnn t rs).consumes = rs.consumes) ∧
      ((descriptionAnn t rs).consumes_content_type = rs.consumes_content_type) ∧
      ((descriptionAnn t rs).produces = rs.produces) ∧
      ((descriptionAnn t rs).produces_content_type = rs.produces_content_type) ∧
      ((descriptionAnn t rs).operation = rs.operation) ∧
      ((descriptionAnn t rs).blueprint = rs.blueprint) ∧
      ((descriptionAnn t rs).tags = rs.tags) ∧
      ((descriptionAnn t rs).hide = rs.hide) ∧
      ((descriptionAnn t rs).produces_description = rs.produces_description) ∧
      ((descriptionAnn t rs).produces_examples = rs.produces_examples) ∧
      ((descriptionAnn t rs).headers = rs.headers)) ∧
    (∀ rs : RouteSpec,
      ((hideAnn rs).hide = some (.bool true)) ∧
      ((hideAnn rs).summary = rs.summary) ∧
      ((hideAnn rs).description = rs.description) ∧
      ((hideAnn rs).consumes = rs.consumes) ∧
      ((hideAnn rs).consumes_content_type = rs.consumes_content_type) ∧
      ((hideAnn rs).produces = rs.produces) ∧
      ((hideAnn rs).produces_content_type = rs.produces_content_type) ∧
      ((hideAnn rs).operation = rs.operation) ∧
      ((hideAnn rs).blueprint = rs.blueprint) ∧
      ((hideAnn rs).tags = rs.tags) ∧
      ((hideAnn rs).produces_description = rs.produces_description) ∧
      ((hideAnn rs).produces_examples = rs.produces_examples) ∧
      ((hideAnn rs).headers = rs.headers)) ∧
    (∀ (x : PVal) (xs : List PVal) (ct : Option PVal) (rs : RouteSpec),
      ((consumesAnn (x :: xs) ct rs).consumes = some (collapse (x :: xs))) ∧
      ((consumesAnn (x :: xs) ct rs).consumes_content_type = ct) ∧
      ((consumesAnn (x :: xs) ct rs).summary = rs.summary) ∧
      ((consumesAnn (x :: xs) ct rs).description = rs.description) ∧
      ((consumesAnn (x :: xs) ct rs).produces = rs.produces) ∧
      ((consumesAnn (x :: xs) ct rs).produces_content_type = rs.produces_content_type) ∧
      ((consumesAnn (x :: xs) ct rs).operation = rs.operation) ∧
      ((consumesAnn (x :: xs) ct rs).blueprint = rs.blueprint) ∧
      ((consumesAnn (x :: xs) ct rs).tags = rs.tags) ∧
      ((consumesAnn (x :: xs) ct rs).hide = rs.hide) ∧
      ((consumesAnn (x :: xs) ct rs).produces_description = rs.produces_description) ∧
      ((consumesAnn (x :: xs) ct rs).produces_examples = rs.produces_examples) ∧
      ((consumesAnn (x :: xs) ct rs).headers = rs.headers)) ∧
    (∀ (x : PVal) (xs : List PVal) (desc : PVal) (ct ex : Option PVal) (rs : RouteSpec),
      ((producesAnn (x :: xs) desc ct ex rs).produces = some (collapse (x :: xs))) ∧
      ((producesAnn (x :: xs) desc ct ex rs).produces_content_type = ct) ∧
      ((producesAnn (x :: xs) desc ct ex rs).produces_description = some desc) ∧
      ((producesAnn (x :: xs) desc ct ex rs).produces_examples = ex) ∧
      ((producesAnn (x :: xs) desc ct ex rs).summary = rs.summary) ∧
      ((producesAnn (x :: xs) desc ct ex rs).description = rs.description) ∧
      ((producesAnn (x :: xs) desc ct ex rs).consumes = rs.consumes) ∧
      ((producesAnn (x :: xs) desc ct ex rs).consumes_content_type
        = rs.consumes_content_type) ∧
      ((producesAnn (x :: xs) desc ct ex rs).operation = rs.operation) ∧
      ((producesAnn (x :: xs) desc ct ex rs).blueprint = rs.blueprint) ∧
      ((producesAnn (x :: xs) desc ct ex rs).tags = rs.tags) ∧
      ((producesAnn (x :: xs) desc ct ex rs).hide = rs.hide) ∧
      ((producesAnn (x :: xs) desc ct ex rs).headers = rs.headers)) :=
  ⟨routeAnn_spec,
   fun _ _ => ⟨rfl, rfl, rfl, rfl, rfl, rfl, rfl, rfl, rfl, rfl, rfl, rfl, rfl⟩,
   fun _ _ => ⟨rfl, rfl, rfl, rfl, rfl, rfl, rfl, rfl, rfl, rfl, rfl, rfl, rfl⟩,
   fun _ => ⟨rfl, rfl, rfl, rfl, rfl, rfl, rfl, rfl, rfl, rfl, rfl, rfl, rfl⟩,
   fun _ _ _ _ => ⟨rfl, rfl, rfl, rfl, rfl, rfl, rfl, rfl, rfl, rfl, rfl, rfl, rfl⟩,
   fun _ _ _ _ _ _ => ⟨rfl, rfl, rfl, rfl, rfl, rfl, rfl, rfl, rfl, rfl, rfl, rfl, rfl⟩⟩

theorem hasRef_false_of_countRef_zero {defs : Defs} {r : Nat}
    (h : countRef defs r = 0) : hasRef defs r = false := by
  cases hh : hasRef defs r with
  | false => rfl
  | true =>
    rw [hasRef, List.any_eq_true] at hh
    obtain ⟨e, he, hx⟩ := hh
    have hpos : 0 < countRef defs r := by
      rw [countRef]
      exact List.countP_pos_iff.mpr ⟨e, he, hx⟩
    omega

theorem countRef_defsAssign_self (d : Defs) (r : Nat) (e : ObjInst × JMap)
    (h : countRef d r = 0 ∨ countRef d r = 1) :
    countRef (defsAssign d r e) r = 1 := by
  unfold defsAssign
  by_cases hr : hasRef d r
  · rw [if_pos hr]
    have hmap : countRef (d.map fun x => if x.1 == r then (x.1, e) else x) r
        = countRef d r := by
      unfold countRef
      rw [List.countP_map]
      refine List.countP_congr ?_
      intro x _
      by_cases hx : x.1 = r <;> simp [hx]
    rw [hmap]
    rcases h with h | h
    · rw [hasRef_false_of_countRef_zero h] at hr
      cases hr
    · exact h
  · rw [if_neg hr]
    unfold countRef
    rw [List.countP_append]
    have h0 : countRef d r = 0 :=
      countRef_eq_zero_of_hasRef_false (Bool.eq_false_iff.mpr hr)
    unfold countRef at h0
    simp [h0, List.countP_cons]

theorem jLookup_ref_objectSerializeNamed (objectName : String) (a : FieldAttrs) :
    jLookup "$ref" (objectSerializeNamed objectName a)
      = some (.str ("#/definitions/" ++ objectName)) := by
  rw [objectSerializeNamed_eq, jLookup_append]
  rfl

/-- C1: constructing `Object(C)` for a not-yet-registered class leaves exactly
one registry entry for `C`; any second construction for the same class
returns with the registry completely untouched (no recompute, no overwrite);
and `serialize()` yields `"$ref": "#/definitions/<name>"` where `<name>` is
`object_name or cls.__name__` — the class name unless a truthy (non-empty)
`object_name` override was given. -/
theorem C1_object_registry_idempotent (r : Nat) (clsName : String)
    (clsAttrs : List (String × PySchema)) (objectName : Option String)
    (a : FieldAttrs) (defs d : Defs) (inst : ObjInst)
    (h0 : countRef defs r = 0)
    (h1 : objectInit r clsName clsAttrs objectName a defs = (.ok inst, d)) :
    countRef d r = 1 ∧
    inst = ⟨r, clsName, clsAttrs, objectNameOr objectName clsName, a⟩ ∧
    (∀ (objectName2 : Option String) (a2 : FieldAttrs),
      objectInit r clsName clsAttrs objectName2 a2 d
        = (.ok ⟨r, clsName, clsAttrs, objectNameOr objectName2 clsName, a2⟩, d)) ∧
    jLookup "$ref" (objectSerializeNamed inst.objectName inst.attrs)
      = some (.str ("#/definitions/" ++ objectNameOr objectName clsName)) := by
  have hr : hasRef defs r = false := hasRef_false_of_countRef_zero h0
  simp only [objectInit] at h1
  rw [if_neg (by simp [hr])] at h1
  split at h1
  · rename_i e d1 heq
    cases h1
  · rename_i props d1 heq
    simp only [Prod.mk.injEq, Except.ok.injEq] at h1
    obtain ⟨hinst, hd⟩ := h1
    subst hinst
    subst hd
    have hRc := rcount_objectProps clsAttrs defs r
    rw [heq] at hRc
    dsimp only at hRc
    unfold Rcount at hRc
    have hcount : countRef (defsAssign d1 r
        (⟨r, clsName, clsAttrs, objectNameOr objectName clsName, a⟩, objectTypeSchema props a)) r
        = 1 := by
      refine countRef_defsAssign_self d1 r _ ?_
      rcases hRc with h | h <;> omega
    refine ⟨hcount, rfl, ?_, jLookup_ref_objectSerializeNamed _ _⟩
    intro objectName2 a2
    have hr2 : hasRef (defsAssign d1 r
        (⟨r, clsName, clsAttrs, objectNameOr objectName clsName, a⟩, objectTypeSchema props a)) r
        = true :=
      hasRef_true_of_countRef_ne_zero (by omega)
    simp only [objectInit]
    rw [if_pos hr2]

/-- C1 witness: a concrete two-attribute class (one underscore-prefixed, so it
is filtered out of the definition) registered into an empty registry, with the
FALSY override `object_name=""`, so the `or` fallback yields the class name
and `$ref` is `#/definitions/User`. -/
theorem C1_object_registry_idempotent_witness :
    countRef
        [(0, ⟨0, "User",
            [("id", PySchema.typeRef TypeRef.intType),
             ("_hidden", PySchema.typeRef TypeRef.strType)], "User", noAttrs⟩,
          [("type", PVal.str "object"),
           ("properties", PVal.dict
             [("id", PVal.dict [("type", PVal.str "integer"),
                                ("format", PVal.str "int64")])])])] 0 = 1 ∧
    (⟨0, "User",
        [("id", PySchema.typeRef TypeRef.intType),
         ("_hidden", PySchema.typeRef TypeRef.strType)], "User", noAttrs⟩ : ObjInst)
      = ⟨0, "User",
          [("id", PySchema.typeRef TypeRef.intType),
           ("_hidden", PySchema.typeRef TypeRef.strType)],
          objectNameOr (some "") "User", noAttrs⟩ ∧
    (∀ (objectName2 : Option String) (a2 : FieldAttrs),
      objectInit 0 "User"
          [("id", PySchema.typeRef TypeRef.intType),
           ("_hidden", PySchema.typeRef TypeRef.strType)] objectName2 a2
          [(0, ⟨0, "User",
              [("id", PySchema.typeRef TypeRef.intType),
               ("_hidden", PySchema.typeRef TypeRef.strType)], "User", noAttrs⟩,
            [("type", PVal.str "object"),
             ("properties", PVal.dict
               [("id", PVal.dict [("type", PVal.str "integer"),
                                  ("format", PVal.str "int64")])])])]
        = (.ok ⟨0, "User",
            [("id", PySchema.typeRef TypeRef.intType),
             ("_hidden", PySchema.typeRef TypeRef.strType)],
            objectNameOr objectName2 "User", a2⟩,
           [(0, ⟨0, "User",
               [("id", PySchema.typeRef TypeRef.intType),
                ("_hidden", PySchema.typeRef TypeRef.strType)], "User", noAttrs⟩,
             [("type", PVal.str "object"),
              ("properties", PVal.dict
                [("id", PVal.dict [("type", PVal.str "integer"),
                                   ("format", PVal.str "int64")])])])])) ∧
    jLookup "$ref"
        (objectSerializeNamed
          (ObjInst.objectName ⟨0, "User",
            [("id", PySchema.typeRef TypeRef.intType),
             ("_hidden", PySchema.typeRef TypeRef.strType)], "User", noAttrs⟩)
          (ObjInst.attrs ⟨0, "User",
            [("id", PySchema.typeRef TypeRef.intType),
             ("_hidden", PySchema.typeRef TypeRef.strType)], "User", noAttrs⟩))
      = some (.str ("#/definitions/" ++ objectNameOr (some "") "User")) :=
  C1_object_registry_idempotent 0 "User"
    [("id", PySchema.typeRef TypeRef.intType),
     ("_hidden", PySchema.typeRef TypeRef.strType)] (some "") noAttrs [] _ _
    (by rfl)
    (by simp only [objectInit, objectProps, serializeSchema]; rfl)

end SanicOpenapi
